import Mathlib

/-
Verification of the rusty_website core: the logging pipeline consumer, the
fallback error logger, the time formatters (src/log.rs) and the connection
handler with its wire framing (src/server/run.rs).  Stateful code is embedded
as explicit state passing; I/O outcomes (parse results, provider results,
write/flush/send success) are environment parameters.
-/

namespace RustyWebsite

/-- Client IPv4 address.  Modelled from the spec: the repository's `types.rs`
is not under src/; the spec calls the type `IPv4Address` and `src/log.rs`
indexes values as `v[0]..v[3]`, so it is embedded as four bytes.  The Rust
`Default` for `[u8; 4]` is all zeros, embedded below as `ipDefault`. -/
structure IpAddr where
  a : Nat
  b : Nat
  c : Nat
  d : Nat
deriving DecidableEq

/-- Default value of `IpAddr`, the all-zeros address 0.0.0.0; this is what
`unwrap_or_default()` substitutes for an absent IP in `logger`. -/
def ipDefault : IpAddr := ⟨0, 0, 0, 0⟩

/-- Virtual host, from `server::response::Host` as used in src/log.rs and
src/server/run.rs: the closed variant set `{ Mycology, Site }`. -/
inductive Host where
  | Mycology
  | Site
deriving DecidableEq

/-- HTTP response, from the spec's data model (the defining `response.rs` is
not under src/, but the fields `status`, `mime_type`, `content` are fixed by
their uses in src/server/run.rs and src/mycology/generate.rs).  `content` is a
raw byte sequence. -/
structure Response where
  status : String
  mime_type : String
  content : List Nat
deriving DecidableEq

/-- Parsed request descriptor, from the spec's data model; the field set is
fixed by the destructuring in `handle_connection` (src/server/run.rs). -/
structure RequestInfo where
  host : Option Host
  path : Option String
  user_agent : Option String
  ip : Option IpAddr
  referer : Option String
deriving DecidableEq

/-- Log record, from `Log` in src/log.rs lines 16-26.  `SystemTime` values are
embedded as microseconds since the epoch (a `Nat`). -/
structure Log where
  path : Option String
  host : Option Host
  user_agent : Option String
  ip : Option IpAddr
  referer : Option String
  status : String
  length : Nat
  cxn_time : Nat
  start_time : Nat
deriving DecidableEq

/-- UTF-8 encoding of one code point, as a list of byte values. -/
def utf8Bytes (c : Nat) : List Nat :=
  if c < 0x80 then [c]
  else if c < 0x800 then [0xC0 ||| (c >>> 6), 0x80 ||| (c &&& 0x3F)]
  else if c < 0x10000 then
    [0xE0 ||| (c >>> 12), 0x80 ||| ((c >>> 6) &&& 0x3F), 0x80 ||| (c &&& 0x3F)]
  else
    [0xF0 ||| (c >>> 18), 0x80 ||| ((c >>> 12) &&& 0x3F), 0x80 ||| ((c >>> 6) &&& 0x3F),
      0x80 ||| (c &&& 0x3F)]

/-- Byte sequence of a string, UTF-8 encoded; embeds Rust's
`String::into_bytes`. -/
def strBytes (s : String) : List Nat :=
  s.data.foldr (fun c acc => utf8Bytes c.toNat ++ acc) []

/-- Display string of an optional IP, from `impl ToString for Option<IpAddr>`
in src/log.rs lines 78-87: dotted quads, or the literal `No IP`. -/
def optIpToString : Option IpAddr → String
  | some v =>
    let x := v.a
    let y := v.b
    let z := v.c
    let w := v.d
    s!"{x}.{y}.{z}.{w}"
  | none => "No IP"

/-- Modelled from the spec: the domain display strings come from the
repository's `consts.rs`, which is not under src/; no claim depends on their
exact values. -/
def domainsMYCOLOGY : String := "mycology"

/-- Modelled from the spec: see `domainsMYCOLOGY`. -/
def domainsNODOMAIN : String := "site"

/-- Display string of an optional host, from `impl ToString for Option<Host>`
in src/log.rs lines 89-99: domain constant, or the literal `None`. -/
def optHostToString : Option Host → String
  | some Host.Mycology => domainsMYCOLOGY
  | some Host.Site => domainsNODOMAIN
  | none => "None"

/-- Modelled from the spec: timestamp text is produced by the external
`humantime` crate (RFC 3339 with `T`/`Z` replaced), which is outside the
repository; it is abstracted as the decimal microsecond count, since no claim
depends on the rendered text. -/
def timestampString (t : Nat) : String := toString t

/-- Rendering of an optional string field, from `path.unwrap_or_else(none)`
etc. in `logger` (src/log.rs lines 155, 188, 192-193): the value, or the
literal `None`. -/
def renderOptString (s : Option String) : String := s.getD "None"

/-- Bucketing of an elapsed duration in microseconds, from `to_elapsed` in
src/log.rs lines 116-125: strictly below 1000 renders in μs, strictly below
1000000 in ms (divided by 1000), otherwise in s (divided by 1000000). -/
def to_elapsed_micros (t : Nat) : String :=
  if t < 1000 then s!"{t}μs"
  else if t < 1000000 then
    let q := t / 1000
    s!"{q}ms"
  else
    let q := t / 1000000
    s!"{q}s"

/-- Elapsed-time formatter from `to_elapsed` in src/log.rs: `elapsed()` from
instant `t` to instant `now` (microseconds), with the `SystemTimeError` case
(`now` before `t`) rendered as the fallback string. -/
def to_elapsed (now t : Nat) : String :=
  if now < t then "Time has gone backwards :("
  else to_elapsed_micros (now - t)

/-- Component list of the uptime rendering, from the array literal in
`to_wdhms` (src/log.rs lines 139-145), in its fixed descending order. -/
def wdhmsComponents (n : Nat) : List (String × Nat) :=
  [("weeks", n / 604800), ("days", (n / 86400) % 7), ("hours", (n / 3600) % 24),
    ("mins", (n / 60) % 60), ("secs", n % 60)]

/-- Uptime rendering of a seconds count, from `to_wdhms` in src/log.rs lines
137-152: fold over the component list, skipping zero components and otherwise
appending `" {value} {unit}"` (Rust `format!("{a} {time} {b}")`). -/
def to_wdhms (n : Nat) : String :=
  (wdhmsComponents n).foldl
    (fun a p =>
      match p with
      | (u, t) =>
        match t with
        | 0 => a
        | _ => a ++ s!" {t} {u}")
    ""

/-- Uptime formatter from `to_uptime` in src/log.rs lines 127-130: whole
elapsed seconds from instant `t` to instant `now` (both in microseconds),
rendered by `to_wdhms`; the backwards-time case renders the fallback. -/
def to_uptime (now t : Nat) : String :=
  if now < t then "Time has gone backwards :("
  else to_wdhms ((now - t) / 1000000)

/-- Compact one-line record, from the `mini_log` closure in src/log.rs lines
196-200. -/
def mini_log (now total : Nat) (ev : Log) : String :=
  let ip_str := optIpToString ev.ip
  let timestamp := timestampString ev.cxn_time
  let status := ev.status
  let length := ev.length
  let turnaround := to_elapsed now ev.cxn_time
  let path := renderOptString ev.path
  s!"#{total} - {ip_str} - {timestamp} - {status} - {length}b - {turnaround} - {path}\n"

/-- Verbose multi-field record, from the `big_log` closure in src/log.rs lines
202-220. -/
def big_log (now total unique : Nat) (ev : Log) : String :=
  let ip_str := optIpToString ev.ip
  let timestamp := timestampString ev.cxn_time
  let status := ev.status
  let length := ev.length
  let turnaround := to_elapsed now ev.cxn_time
  let path := renderOptString ev.path
  let host := optHostToString ev.host
  let referer := renderOptString ev.referer
  let user_agent := renderOptString ev.user_agent
  let uptime := to_uptime now ev.start_time
  s!"START\nTimestamp: {timestamp}\n# Unique: {unique}\n# Total: {total}\nUp-time:{uptime}\nRequest:\n\tPath: {path}\n\tHost: {host}\n\tIp: {ip_str}\n\tReferer: {referer}\n\tAgent: {user_agent}\nResponse:\n\tStatus: {status}\n\tLength: {length} bytes\n\tTurnaround: {turnaround}\n"

/-- Running state of the logging consumer, from the locals `prev_ip`,
`total_conn`, `unique_conn` of `logger` (src/log.rs lines 162-164). -/
structure LogState where
  prev_ip : Option IpAddr
  total_conn : Nat
  unique_conn : Nat
deriving DecidableEq

/-- Initial consumer state: `prev_ip = None`, both counters zero
(src/log.rs lines 162-164). -/
def loggerInit : LogState := ⟨none, 0, 0⟩

/-- Processing of one event on the open-file branch of `logger` (src/log.rs
lines 174-235): increment the total, compare the event IP with the previous
one (both defaulted), choose the compact or verbose record, increment the
unique counter only in the verbose case, and remember the event's IP.
`now` is the formatting-time instant in microseconds. -/
def loggerStep (now : Nat) (s : LogState) (ev : Log) : LogState × String :=
  let total := s.total_conn + 1
  if s.prev_ip.getD ipDefault = ev.ip.getD ipDefault then
    (⟨ev.ip, total, s.unique_conn⟩, mini_log now total ev)
  else
    (⟨ev.ip, total, s.unique_conn + 1⟩, big_log now total (s.unique_conn + 1) ev)

/-- Observable output of the consumer: final state, lines written to the
access-log file, lines written to standard output, diagnostics written to the
error stream. -/
structure LoggerOut where
  st : LogState
  fileOut : List String
  stdOut : List String
  errOut : List String
deriving DecidableEq

/-- Reception of one event by `logger` (src/log.rs lines 172-236): with a
valid file handle the record is written to the file and mirrored to stdout and
the state advances; with a failed open (`file` is `Err`) the match arm
`(_, Err(e))` only prints a diagnostic to the error stream — state, file and
stdout are untouched. -/
def loggerProcess (now : Nat) (fileOk : Bool) (s : LogState) (ev : Log) : LoggerOut :=
  if fileOk then
    let r := loggerStep now s ev
    ⟨r.1, [r.2], [r.2], []⟩
  else
    ⟨s, [], [], ["cannot open log file"]⟩

/-- Consumer loop of `logger` over a finite list of received events, in
arrival order. -/
def loggerRun (now : Nat) (fileOk : Bool) (s : LogState) : List Log → LoggerOut
  | [] => ⟨s, [], [], []⟩
  | ev :: rest =>
    let o1 := loggerProcess now fileOk s ev
    let o2 := loggerRun now fileOk o1.st rest
    ⟨o2.st, o1.fileOut ++ o2.fileOut, o1.stdOut ++ o2.stdOut, o1.errOut ++ o2.errOut⟩

/-- Substring test, embedding Rust's `str::contains`: `pat` occurs in `s` iff
splitting on `pat` yields more than one piece. -/
def containsSubstr (s pat : String) : Bool := 2 ≤ (s.splitOn pat).length

/-- Whitespace splitting, embedding Rust's `split_whitespace`: split on
whitespace characters and drop empty pieces. -/
def splitWhitespace (s : String) : List String :=
  (s.split (fun c => c.isWhitespace)).filter (fun t => t ≠ "")

/-- Cosmetic status normalization from `handle_connection` (src/server/run.rs
lines 86-92): drop every whitespace-separated token containing `HTTP`, and
re-join the rest, each preceded by one space (Rust `format!("{a} {b}")`). -/
def normalize_status (status : String) : String :=
  (splitWhitespace status).foldl
    (fun a b => if containsSubstr b "HTTP" then a else a ++ " " ++ b) ""

/-- Wire framing from `prepend_headers` (src/server/run.rs lines 120-134):
the status line, CRLF, a Content-Length header with the content byte length,
CRLF, a Content-Type header with the mime type, CRLF CRLF, then the raw
content bytes. -/
def prepend_headers (r : Response) : List Nat :=
  strBytes (r.status ++ "\r\nContent-Length: " ++ toString r.content.length ++
      "\r\nContent-Type: " ++ r.mime_type ++ "\r\n\r\n") ++ r.content

/-- Modelled from the spec: `err::nf404` lives in the repository's
`server/response.rs`, which is not under src/.  The spec says absent
host/path, or a provider "not found", resolves to a 404 Not Found response,
so it is embedded as that fixed response. -/
def nf404Response : Response :=
  ⟨"HTTP/1.1 404 Not Found", "text/html", strBytes "<html>404</html>"⟩

/-- Modelled from the spec: the `err::nf404()` call as used in
`handle_connection`, returning the 404 response successfully. -/
def nf404 : Except String Response := Except.ok nf404Response

/-- Modelled from the spec: `replace_err` lives in the repository outside
src/; per the spec, a provider error ("not found" signal) is replaced by the
404 resolution. -/
def replace_err (r : Except String Response) : Except String Response :=
  match r with
  | Except.ok v => Except.ok v
  | Except.error _ => nf404

/-- Environment of one connection: outcome of the external request parser,
the two content providers, and the success of the socket write, socket flush
and queue send. -/
structure HandlerEnv where
  parseResult : Except String RequestInfo
  mycologyGet : String → Except String Response
  siteGet : String → Except String Response
  writeOk : Bool
  flushOk : Bool
  sendOk : Bool

/-- How one run of `handle_connection` ends: normal return, an error
propagated with `?`, or a panic (the `unwrap()` on a failed queue send at
src/server/run.rs line 112). -/
inductive HOutcome where
  | ok
  | err (e : String)
  | panicked
deriving DecidableEq

/-- Observable result of one run of `handle_connection`: how it ended, the
byte sequences successfully written to the socket, and the log events
submitted to the queue. -/
structure HandlerResult where
  outcome : HOutcome
  wire : List (List Nat)
  submitted : List Log

/-- Per-connection logic from `handle_connection` (src/server/run.rs lines
61-114): parse (propagating failure), dispatch on `(host, path)` — both
present goes to the host's provider with `replace_err`, otherwise `nf404` —
propagating failure, compute the normalized status and content length, write
the framed response and flush (each propagating failure), then send exactly
one `Log` to the queue, panicking if the send fails.  `cxn` is the recorded
connection-start instant and `uptime` the process-start instant. -/
def handle_connection (env : HandlerEnv) (cxn uptime : Nat) : HandlerResult :=
  match env.parseResult with
  | Except.error e => ⟨HOutcome.err e, [], []⟩
  | Except.ok info =>
    let respRes : Except String Response :=
      match info.host, info.path with
      | some domain, some path =>
        replace_err
          (match domain with
          | Host.Mycology => env.mycologyGet path
          | Host.Site => env.siteGet path)
      | _, _ => nf404
    match respRes with
    | Except.error e => ⟨HOutcome.err e, [], []⟩
    | Except.ok response =>
      let status := normalize_status response.status
      let length := response.content.length
      if env.writeOk = false then ⟨HOutcome.err "write failed", [], []⟩
      else if env.flushOk = false then
        ⟨HOutcome.err "flush failed", [prepend_headers response], []⟩
      else
        let logev : Log :=
          ⟨info.path, info.host, info.user_agent, info.ip, info.referer, status, length,
            cxn, uptime⟩
        if env.sendOk then ⟨HOutcome.ok, [prepend_headers response], [logev]⟩
        else ⟨HOutcome.panicked, [prepend_headers response], []⟩

/-- Dispatch to the content provider selected by the host variant, from the
`match domain` in `handle_connection` (src/server/run.rs lines 77-80). -/
def providerDispatch (env : HandlerEnv) : Host → String → Except String Response
  | Host.Mycology => fun p => env.mycologyGet p
  | Host.Site => fun p => env.siteGet p

/-- Fate of the process when one in-flight handler future finishes, from the
`futures.next()` arm of the scheduler select (src/server/run.rs lines 52-56):
an `Err` value is only reported and the loop continues; a panic in a handler
future unwinds through `start_server` itself (handlers are polled inside the
scheduler's own task, not spawned), so it is process-fatal. -/
inductive SchedulerFate where
  | continues
  | dies
deriving DecidableEq

/-- Scheduler reaction to a completed handler, see `SchedulerFate`. -/
def onHandlerCompletion : HOutcome → SchedulerFate
  | HOutcome.ok => SchedulerFate.continues
  | HOutcome.err _ => SchedulerFate.continues
  | HOutcome.panicked => SchedulerFate.dies

/-- Log events submitted by a list of handler results, in order. -/
def collectLogs : List HandlerResult → List Log
  | [] => []
  | h :: t => h.submitted ++ collectLogs t

/-- Observable output of a whole system run: per-connection handler results
and the consumer's output. -/
structure SystemOut where
  handlers : List HandlerResult
  logOut : LoggerOut

/-- One system run: every connection is handled (the handler never consults
the consumer's file handle), then the consumer drains the submitted events in
order with file-open outcome `fileOk`. -/
def systemRun (now : Nat) (fileOk : Bool) (cxn uptime : Nat)
    (envs : List HandlerEnv) : SystemOut :=
  let hrs := envs.map (fun e => handle_connection e cxn uptime)
  ⟨hrs, loggerRun now fileOk loggerInit (collectLogs hrs)⟩

/-- One call to the fallback error logger: whether an open attempted on this
call would succeed, whether the append write succeeds, and the
debug-rendering of the logged value. -/
structure ErrCall where
  openOk : Bool
  writeOk : Bool
  msg : String
deriving DecidableEq

/-- Cached state of the `OnceLock` in `log_err` (src/log.rs line 41):
untouched, cached failed open, or cached open handle. -/
inductive ErrCache where
  | uninit
  | unavailable
  | handle
deriving DecidableEq

/-- Process-wide state of the fallback error logger: the `OnceLock` cache,
the count of open attempts, the lines appended to the file, and the error
stream. -/
structure ErrLogSt where
  cache : ErrCache
  opens : Nat
  fileLines : List String
  errOut : List String
deriving DecidableEq

/-- Fallback error logger state at process start. -/
def errLogInit : ErrLogSt := ⟨ErrCache.uninit, 0, [], []⟩

/-- One call of `log_err` (src/log.rs lines 36-71): `get_or_init` attempts
the open only when the cache is untouched, recording the outcome forever
(an open failure also prints one diagnostic); then, only with a cached
handle, append `ERROR - <debug-rendering>\n` under the mutex, printing a
diagnostic instead if the write fails. -/
def log_err (c : ErrCall) (s : ErrLogSt) : ErrLogSt :=
  let s1 :=
    match s.cache with
    | ErrCache.uninit =>
      if c.openOk then { s with cache := ErrCache.handle, opens := s.opens + 1 }
      else
        { s with
          cache := ErrCache.unavailable
          opens := s.opens + 1
          errOut := s.errOut ++ ["cannot open log file"] }
    | _ => s
  match s1.cache with
  | ErrCache.handle =>
    if c.writeOk then { s1 with fileLines := s1.fileLines ++ ["ERROR - " ++ c.msg ++ "\n"] }
    else { s1 with errOut := s1.errOut ++ ["error writing to log file"] }
  | _ => s1

/-- A process lifetime of fallback-logger calls, in order. -/
def runErrLog (calls : List ErrCall) : ErrLogSt :=
  calls.foldl (fun s c => log_err c s) errLogInit

/-- IP comparison as the claims state it: absent IPs equal each other via the
sentinel, and the sentinel is its own value, distinct from every real IP.
This follows the spec's words, for comparison with the source's
`unwrap_or_default` comparison in `loggerStep`. -/
def claimIpEq : Option IpAddr → Option IpAddr → Bool
  | none, none => true
  | some x, some y => decide (x = y)
  | _, _ => false

/-- Chained distinctness of the defaulted IPs along an event list, starting
from a previous-IP value: each event's defaulted IP differs from its
predecessor's. -/
def distinctFrom : Option IpAddr → List Log → Prop
  | _, [] => True
  | p, ev :: rest =>
    p.getD ipDefault ≠ ev.ip.getD ipDefault ∧ distinctFrom ev.ip rest

/-- Rendering of the uptime as the spec's words describe it (with the leading
space the fold actually produces): one piece `" {value} {unit}"` per non-zero
component, concatenated in the fixed descending order, zero components
omitted.  Stated from the spec, for comparison with `to_wdhms`. -/
def wdhmsRender (n : Nat) : String :=
  ((wdhmsComponents n).filter (fun p => p.2 != 0)).foldl
    (fun a p => a ++ " " ++ toString p.2 ++ " " ++ p.1) ""

/-- Concrete sample event used by witnesses and counterexamples. -/
def evSample : Log :=
  ⟨some "/index", some Host.Site, some "agent", some ⟨1, 2, 3, 4⟩, some "ref",
    " 200 OK", 5, 100, 50⟩

/-- Sample event whose IP is the concrete address 0.0.0.0. -/
def evZero : Log := { evSample with ip := some ipDefault }

/-- Sample event with a second distinct IP. -/
def evB : Log := { evSample with ip := some ⟨5, 6, 7, 8⟩ }

/-- Concrete sample response used by witnesses. -/
def respSample : Response := ⟨"HTTP/1.1 200 OK", "text/html", strBytes "<html>hi</html>"⟩

/-- Sample request descriptor with host and path both present. -/
def infoFull : RequestInfo := ⟨some Host.Site, some "/p", some "agent", some ⟨1, 2, 3, 4⟩, none⟩

/-- Sample request descriptor with an absent host. -/
def infoNoHost : RequestInfo := ⟨none, some "/x", none, some ⟨9, 9, 9, 9⟩, none⟩

/-- Sample connection environment where every I/O step succeeds. -/
def envAllOk : HandlerEnv :=
  ⟨Except.ok infoFull, fun _ => Except.error "nf", fun _ => Except.ok respSample,
    true, true, true⟩

/-- Sample environment where the queue send fails. -/
def envNoSend : HandlerEnv := { envAllOk with sendOk := false }

/-- Sample environment whose parsed request has no host. -/
def envNoHost : HandlerEnv := { envAllOk with parseResult := Except.ok infoNoHost }

/- ===================== theorems ===================== -/

/-- The `ToString` instance for `String` is the identity. -/
theorem toString_self (s : String) : toString s = s := rfl

/-- Reception with a failed file open leaves the consumer state unchanged
over a whole run. -/
theorem loggerRun_false_spec (now : Nat) :
    ∀ (evs : List Log) (s : LogState),
    loggerRun now false s evs = ⟨s, [], [], evs.map (fun _ => "cannot open log file")⟩ := by
  intro evs
  induction evs with
  | nil => intro s; rfl
  | cons ev rest ih =>
    intro s
    simp [loggerRun, loggerProcess, ih s]

/-- C10: if the access-log file failed to open at consumer startup, receiving
a log event leaves the consumer's entire running state (`previous_client_ip`,
`total_connections`, `unique_connections`) unchanged — only an error-stream
diagnostic is emitted — and a whole run in that mode ends in its starting
state; the state is mutated only on the branch with a valid file handle. -/
theorem c10_frame_on_failed_open (now : Nat) (s : LogState) (ev : Log) (evs : List Log) :
    loggerProcess now false s ev = ⟨s, [], [], ["cannot open log file"]⟩ ∧
    (loggerRun now false s evs).st = s := by
  refine ⟨rfl, ?_⟩
  rw [loggerRun_false_spec now evs s]

/-- C2 (amended): a failed access-log open does not affect any connection's
handling or response — the handler results of a system run are independent of
the file-open outcome — but it suppresses both the file persistence and the
stdout mirror of every received record: with the handle absent the consumer
emits only one error-stream diagnostic per event. -/
theorem c2_failed_open_amended (now c u : Nat) (fileOk : Bool)
    (envs : List HandlerEnv) (evs : List Log) :
    (systemRun now fileOk c u envs).handlers = (systemRun now true c u envs).handlers ∧
    (loggerRun now false loggerInit evs).stdOut = [] ∧
    (loggerRun now false loggerInit evs).fileOut = [] ∧
    (loggerRun now false loggerInit evs).errOut =
      evs.map (fun _ => "cannot open log file") := by
  refine ⟨rfl, ?_, ?_, ?_⟩ <;> rw [loggerRun_false_spec now evs loggerInit]

/-- C2 counterexample: the claim says the stdout mirror is unaffected by a
failed file open; on the code, processing `evSample` with the handle absent
writes nothing to stdout, while the same event with a valid handle does write
its record there. -/
theorem c2_counterexample :
    (loggerRun 1000 false loggerInit [evSample]).stdOut = [] ∧
    (loggerRun 1000 true loggerInit [evSample]).stdOut ≠ [] := by
  refine ⟨rfl, by decide⟩

/-- C3 (amended): the elapsed-time formatter picks the microsecond bucket for
durations strictly below 1000 μs, the millisecond bucket strictly below
1000000 μs (dividing by 1000), and otherwise the seconds bucket (dividing by
1000000); 500 μs renders as `500μs`, 2500000 μs as `2s` (not `2500ms`),
3000000 μs as `3s`; for a non-backwards clock the elapsed duration is the
difference between the formatting instant and the connection instant. -/
theorem c3_elapsed_amended (t now t0 : Nat) :
    (t < 1000 → to_elapsed_micros t = toString t ++ "μs") ∧
    (1000 ≤ t → t < 1000000 → to_elapsed_micros t = toString (t / 1000) ++ "ms") ∧
    (1000000 ≤ t → to_elapsed_micros t = toString (t / 1000000) ++ "s") ∧
    (t0 ≤ now → to_elapsed now t0 = to_elapsed_micros (now - t0)) := by
  refine ⟨?_, ?_, ?_, ?_⟩
  · intro h
    unfold to_elapsed_micros
    rw [if_pos h]
    show "" ++ (toString t ++ toString "μs") = _
    rw [toString_self, String.empty_append]
  · intro h1 h2
    unfold to_elapsed_micros
    rw [if_neg (by omega), if_pos h2]
    show "" ++ (toString (t / 1000) ++ toString "ms") = _
    rw [toString_self, String.empty_append]
  · intro h
    unfold to_elapsed_micros
    rw [if_neg (by omega), if_neg (by omega)]
    show "" ++ (toString (t / 1000000) ++ toString "s") = _
    rw [toString_self, String.empty_append]
  · intro h
    unfold to_elapsed
    rw [if_neg (by omega)]

/-- C3 witness: the bucket theorem applied at the three sample durations. -/
theorem c3_witness :
    to_elapsed_micros 500 = "500μs" ∧ to_elapsed_micros 2500000 = "2s" ∧
    to_elapsed_micros 3000000 = "3s" :=
  ⟨((c3_elapsed_amended 500 0 0).1 (by decide)).trans (by decide),
    ((c3_elapsed_amended 2500000 0 0).2.2.1 (by decide)).trans (by decide),
    ((c3_elapsed_amended 3000000 0 0).2.2.1 (by decide)).trans (by decide)⟩

/-- C3 counterexample: the claim says 2500000 μs renders as `2500ms`; the
code's seconds bucket starts at 1000000 μs, so it renders as `2s`. -/
theorem c3_counterexample :
    to_elapsed 2500000 0 = "2s" ∧ to_elapsed 2500000 0 ≠ "2500ms" := by
  refine ⟨by decide, by decide⟩

/-- Fold of the zero-skipping component renderer equals, for every starting
accumulator, the plain fold over the list restricted to its non-zero
components. -/
theorem wdhms_fold_eq :
    ∀ (l : List (String × Nat)) (a : String),
    l.foldl
      (fun a p =>
        match p with
        | (u, t) =>
          match t with
          | 0 => a
          | _ => a ++ s!" {t} {u}")
      a =
    (l.filter (fun p => p.2 != 0)).foldl
      (fun a p => a ++ " " ++ toString p.2 ++ " " ++ p.1) a := by
  intro l
  induction l with
  | nil => intro a; rfl
  | cons p rest ih =>
    intro a
    obtain ⟨u, t⟩ := p
    cases t with
    | zero => simpa using ih a
    | succ k =>
      have hs : a ++ s!" {k + 1} {u}" = a ++ " " ++ toString (k + 1) ++ " " ++ u := by
        simp [toString_self, String.append_assoc, String.empty_append, String.append_empty]
      simpa [hs] using ih (a ++ " " ++ toString (k + 1) ++ " " ++ u)

/-- C7 (amended): the uptime formatter renders 90061 seconds as
`" 1 days 1 hours 1 mins 1 secs"` — the non-zero components in fixed
descending order, the zero weeks component omitted, each piece preceded by
one space (so the rendering carries a leading space) — and in general equals
the concatenation of one `" {value} {unit}"` piece per non-zero component of
`{weeks, days, hours, mins, secs}`, in that order. -/
theorem c7_wdhms_amended (n : Nat) :
    to_wdhms 90061 = " 1 days 1 hours 1 mins 1 secs" ∧
    to_wdhms n = wdhmsRender n := by
  refine ⟨by decide, ?_⟩
  unfold to_wdhms wdhmsRender
  exact wdhms_fold_eq (wdhmsComponents n) ""

/-- C7 counterexample: the claim says 90061 seconds renders as
`1 days 1 hours 1 mins 1 secs`; the code's fold prepends a space before every
component, so the rendering starts with a space. -/
theorem c7_counterexample :
    to_wdhms 90061 = " 1 days 1 hours 1 mins 1 secs" ∧
    to_wdhms 90061 ≠ "1 days 1 hours 1 mins 1 secs" := by
  refine ⟨by decide, by decide⟩

/-- C1 (amended): the consumer compares the event's IP to the previous
processed event's IP with absent IPs defaulted to the all-zeros address
0.0.0.0 — so "no IP" equals "no IP" and also equals the present address
0.0.0.0; it is not distinct from every real IP.  If the defaulted IPs are
equal the compact record is emitted and `unique_connections` is unchanged;
if they differ the verbose record is emitted and `unique_connections`
increments exactly then. -/
theorem c1_compact_verbose_amended (now : Nat) (s : LogState) (ev : Log) :
    (s.prev_ip.getD ipDefault = ev.ip.getD ipDefault →
      (loggerStep now s ev).2 = mini_log now (s.total_conn + 1) ev ∧
      (loggerStep now s ev).1.unique_conn = s.unique_conn) ∧
    (s.prev_ip.getD ipDefault ≠ ev.ip.getD ipDefault →
      (loggerStep now s ev).2 = big_log now (s.total_conn + 1) (s.unique_conn + 1) ev ∧
      (loggerStep now s ev).1.unique_conn = s.unique_conn + 1) := by
  unfold loggerStep
  constructor
  · intro h
    rw [if_pos h]
    exact ⟨rfl, rfl⟩
  · intro h
    rw [if_neg h]
    exact ⟨rfl, rfl⟩

/-- C1 witness: from the empty previous state, an event carrying the IP
1.2.3.4 differs from the defaulted previous IP, so the unique counter
increments. -/
theorem c1_witness :
    (loggerStep 1000 loggerInit evSample).1.unique_conn = loggerInit.unique_conn + 1 :=
  ((c1_compact_verbose_amended 1000 loggerInit evSample).2 (by decide)).2

/-- C1 counterexample: under the claim's comparison the sentinel is distinct
from every real IP, so a first event carrying the real address 0.0.0.0 after
a "no IP" previous state should emit the verbose record and increment
`unique_connections`; the code defaults both sides to 0.0.0.0, finds them
equal, emits the compact record and leaves the counter unchanged. -/
theorem c1_counterexample :
    claimIpEq loggerInit.prev_ip evZero.ip = false ∧
    (loggerStep 1000 loggerInit evZero).1.unique_conn = loggerInit.unique_conn ∧
    (loggerStep 1000 loggerInit evZero).2 = mini_log 1000 1 evZero := by
  refine ⟨by decide, by decide, by decide⟩

/-- Total-connections count over a run with a valid handle: one increment per
processed event. -/
theorem loggerRun_total (now : Nat) :
    ∀ (evs : List Log) (s : LogState),
    (loggerRun now true s evs).st.total_conn = s.total_conn + evs.length := by
  intro evs
  induction evs with
  | nil => intro s; rfl
  | cons ev rest ih =>
    intro s
    show (loggerRun now true (loggerStep now s ev).1 rest).st.total_conn = _
    rw [ih]
    unfold loggerStep
    split
    · simp only [List.length_cons]
      show s.total_conn + 1 + rest.length = s.total_conn + (rest.length + 1)
      omega
    · simp only [List.length_cons]
      show s.total_conn + 1 + rest.length = s.total_conn + (rest.length + 1)
      omega

/-- Unique-connections count over a run with a valid handle, when every
event's defaulted IP differs from its predecessor's: one increment per
event. -/
theorem loggerRun_unique (now : Nat) :
    ∀ (evs : List Log) (s : LogState), distinctFrom s.prev_ip evs →
    (loggerRun now true s evs).st.unique_conn = s.unique_conn + evs.length := by
  intro evs
  induction evs with
  | nil => intro s _; rfl
  | cons ev rest ih =>
    intro s h
    obtain ⟨h1, h2⟩ := h
    show (loggerRun now true (loggerStep now s ev).1 rest).st.unique_conn = _
    have hstep : (loggerStep now s ev).1 = ⟨ev.ip, s.total_conn + 1, s.unique_conn + 1⟩ := by
      unfold loggerStep
      rw [if_neg h1]
    rw [hstep, ih ⟨ev.ip, s.total_conn + 1, s.unique_conn + 1⟩ h2]
    simp only [List.length_cons]
    show s.unique_conn + 1 + rest.length = s.unique_conn + (rest.length + 1)
    omega

/-- Pairwise-distinct present IPs, none of them the default address, yield
the chained distinctness the unique counter needs, from any previous value
whose defaulted IP differs from the first event's. -/
theorem distinctFrom_of_pairwise :
    ∀ (evs : List Log) (p : Option IpAddr),
    (∀ ev ∈ evs, ev.ip.isSome ∧ ev.ip ≠ some ipDefault) →
    (evs.map Log.ip).Pairwise (fun x y => x ≠ y) →
    (∀ ev0 ∈ evs.head?, p.getD ipDefault ≠ ev0.ip.getD ipDefault) →
    distinctFrom p evs := by
  intro evs
  induction evs with
  | nil => intro p _ _ _; trivial
  | cons ev rest ih =>
    intro p hpres hpw hhead
    refine ⟨hhead ev rfl, ?_⟩
    rw [List.map_cons, List.pairwise_cons] at hpw
    refine ih ev.ip (fun e he => hpres e (List.mem_cons_of_mem ev he)) hpw.2 ?_
    intro ev2 hev2
    cases rest with
    | nil => simp at hev2
    | cons e2 r2 =>
      simp only [List.head?_cons, Option.mem_def, Option.some.injEq] at hev2
      subst hev2
      have hne : ev.ip ≠ e2.ip := hpw.1 e2.ip (by simp)
      obtain ⟨hs1, _⟩ := hpres ev (by simp)
      obtain ⟨hs2, _⟩ := hpres e2 (by simp)
      obtain ⟨i1, hi1⟩ := Option.isSome_iff_exists.mp hs1
      obtain ⟨i2, hi2⟩ := Option.isSome_iff_exists.mp hs2
      rw [hi1, hi2]
      simp only [Option.getD_some]
      intro hcontra
      exact hne (by rw [hi1, hi2, hcontra])

/-- C4 (amended): for every sequence of events whose IPs are present,
pairwise distinct and none the default address 0.0.0.0 (which the code
cannot tell apart from "no IP"), draining them in order with a valid file
handle yields `unique_connections = N` and `total_connections = N`; the
total counter is incremented exactly once per processed event, hence
monotonically non-decreasing over the run. -/
theorem c4_counters_amended (now : Nat) (evs : List Log)
    (hpres : ∀ ev ∈ evs, ev.ip.isSome ∧ ev.ip ≠ some ipDefault)
    (hdist : (evs.map Log.ip).Pairwise (fun x y => x ≠ y)) :
    (loggerRun now true loggerInit evs).st.unique_conn = evs.length ∧
    (loggerRun now true loggerInit evs).st.total_conn = evs.length ∧
    ∀ (s : LogState) (ev : Log), (loggerStep now s ev).1.total_conn = s.total_conn + 1 := by
  refine ⟨?_, ?_, ?_⟩
  · have hd : distinctFrom loggerInit.prev_ip evs := by
      refine distinctFrom_of_pairwise evs loggerInit.prev_ip hpres hdist ?_
      intro ev0 h0
      have hmem : ev0 ∈ evs := by
        cases evs with
        | nil => simp at h0
        | cons e r =>
          simp only [List.head?_cons, Option.mem_def, Option.some.injEq] at h0
          subst h0
          simp
      obtain ⟨hs, hne⟩ := hpres ev0 hmem
      obtain ⟨i, hi⟩ := Option.isSome_iff_exists.mp hs
      rw [hi]
      simp only [Option.getD_some, Option.getD_none, loggerInit]
      intro hcontra
      exact hne (by rw [hi, hcontra])
    have := loggerRun_unique now evs loggerInit hd
    simpa [loggerInit] using this
  · have := loggerRun_total now evs loggerInit
    simpa [loggerInit] using this
  · intro s ev
    unfold loggerStep
    split
    · rfl
    · rfl

/-- C4 witness: two events with distinct present non-default IPs yield two
unique connections. -/
theorem c4_witness :
    (loggerRun 1000 true loggerInit [evSample, evB]).st.unique_conn = 2 :=
  (c4_counters_amended 1000 [evSample, evB] (by decide) (by decide)).1

/-- C4 counterexample: the claim promises `unique_connections = N` for any
sequence of pairwise-distinct client IPs; a single event carrying the real
address 0.0.0.0 (trivially pairwise distinct, IP present) leaves
`unique_connections` at 0, not 1, because the code cannot distinguish it from
the "no IP" starting state. -/
theorem c4_counterexample :
    (([evZero].map Log.ip).Pairwise (fun x y => x ≠ y)) ∧
    (∀ ev ∈ ([evZero] : List Log), ev.ip.isSome) ∧
    (loggerRun 1000 true loggerInit [evZero]).st.unique_conn ≠ ([evZero] : List Log).length := by
  refine ⟨by simp, by decide, by decide⟩

/-- Shape of every handler result: a normal return submits exactly one
event; every other ending submits none. -/
theorem handler_shape (env : HandlerEnv) (c u : Nat) :
    ((handle_connection env c u).outcome = HOutcome.ok ∧
      (handle_connection env c u).submitted.length = 1) ∨
    ((handle_connection env c u).outcome ≠ HOutcome.ok ∧
      (handle_connection env c u).submitted = []) := by
  generalize hR : handle_connection env c u = R
  unfold handle_connection at hR
  repeat' split at hR
  all_goals subst hR
  all_goals try simp
  all_goals try split
  all_goals simp

/-- C5 (amended): every run of the connection handler either returns
successfully having submitted exactly one log event, or returns a propagated
error having submitted none (never both, never more than one); a propagated
error is reported by the scheduler and the process continues, but a failed
queue send panics the handler and — handlers being polled inside the
scheduler's own task — the panic is fatal to the process, with no event
submitted. -/
theorem c5_one_submission_amended (env : HandlerEnv) (c u : Nat) :
    ((handle_connection env c u).outcome = HOutcome.ok →
      (handle_connection env c u).submitted.length = 1) ∧
    (∀ e, (handle_connection env c u).outcome = HOutcome.err e →
      (handle_connection env c u).submitted = []) ∧
    (handle_connection env c u).submitted.length ≤ 1 ∧
    ((handle_connection env c u).outcome = HOutcome.panicked →
      (handle_connection env c u).submitted = [] ∧
      onHandlerCompletion (handle_connection env c u).outcome = SchedulerFate.dies) ∧
    (∀ e, onHandlerCompletion (HOutcome.err e) = SchedulerFate.continues) := by
  rcases handler_shape env c u with ⟨hok, hlen⟩ | ⟨hnok, hnil⟩
  · refine ⟨fun _ => hlen, ?_, ?_, ?_, fun e => rfl⟩
    · intro e he
      rw [he] at hok
      exact absurd hok (by simp)
    · omega
    · intro hpan
      rw [hpan] at hok
      exact absurd hok (by simp)
  · refine ⟨fun h => absurd h hnok, fun e _ => hnil, ?_, ?_, fun e => rfl⟩
    · rw [hnil]
      simp
    · intro hpan
      refine ⟨hnil, ?_⟩
      rw [hpan]
      rfl

/-- C5 witness: with every I/O step succeeding, the handler returns normally
and submits exactly one event. -/
theorem c5_witness : (handle_connection envAllOk 0 0).submitted.length = 1 :=
  (c5_one_submission_amended envAllOk 0 0).1 rfl

/-- C5 counterexample: the claim says a failed submission is fatal to the
connection only, not to the process; with the queue send failing the handler
panics, and the scheduler, which polls handler futures inside its own task,
dies with it. -/
theorem c5_counterexample :
    (handle_connection envNoSend 0 0).outcome = HOutcome.panicked ∧
    onHandlerCompletion (handle_connection envNoSend 0 0).outcome = SchedulerFate.dies ∧
    SchedulerFate.dies ≠ SchedulerFate.continues := by
  refine ⟨rfl, rfl, by decide⟩

/-- C6: the bytes written to the socket are exactly the provider's status
line, CRLF, a Content-Length header whose value is the byte length of the
content, CRLF, a Content-Type header carrying the mime type, CRLF CRLF, then
the raw content bytes, in a single write; no other header is emitted, and the
wire status line is the provider's, while only the log event carries the
cosmetically normalized status. -/
theorem c6_wire_framing (env : HandlerEnv) (c u : Nat) (info : RequestInfo)
    (d : Host) (p : String) (r : Response)
    (hparse : env.parseResult = Except.ok info)
    (hhost : info.host = some d) (hpath : info.path = some p)
    (hprov : providerDispatch env d p = Except.ok r)
    (hw : env.writeOk = true) :
    (handle_connection env c u).wire = [prepend_headers r] ∧
    prepend_headers r =
      strBytes (r.status ++ "\r\nContent-Length: " ++ toString r.content.length ++
        "\r\nContent-Type: " ++ r.mime_type ++ "\r\n\r\n") ++ r.content ∧
    (env.flushOk = true → env.sendOk = true →
      (handle_connection env c u).submitted =
        [⟨info.path, info.host, info.user_agent, info.ip, info.referer,
          normalize_status r.status, r.content.length, c, u⟩]) := by
  cases d with
  | Mycology =>
    have hm : env.mycologyGet p = Except.ok r := hprov
    unfold handle_connection
    cases hf : env.flushOk <;> cases hs : env.sendOk <;>
      simp [hparse, hhost, hpath, hm, replace_err, hw, hf, hs, prepend_headers]
  | Site =>
    have hm : env.siteGet p = Except.ok r := hprov
    unfold handle_connection
    cases hf : env.flushOk <;> cases hs : env.sendOk <;>
      simp [hparse, hhost, hpath, hm, replace_err, hw, hf, hs, prepend_headers]

/-- C6 witness: the framing theorem at the all-success sample environment. -/
theorem c6_witness : (handle_connection envAllOk 0 0).wire = [prepend_headers respSample] :=
  (c6_wire_framing envAllOk 0 0 infoFull Host.Site "/p" respSample rfl rfl rfl rfl rfl).1

/-- C8: a request whose parsed host or path is absent resolves to the 404
Not Found response — the handler returns normally, never panics — and the
submitted log event keeps the absent fields, which the consumer's formatting
renders as the literal `None`, not as an empty string. -/
theorem c8_absent_404 (env : HandlerEnv) (c u : Nat) (info : RequestInfo)
    (hparse : env.parseResult = Except.ok info)
    (habsent : info.host = none ∨ info.path = none)
    (hw : env.writeOk = true) (hf : env.flushOk = true) (hs : env.sendOk = true) :
    (handle_connection env c u).outcome = HOutcome.ok ∧
    (handle_connection env c u).wire = [prepend_headers nf404Response] ∧
    nf404Response.status = "HTTP/1.1 404 Not Found" ∧
    (handle_connection env c u).submitted =
      [⟨info.path, info.host, info.user_agent, info.ip, info.referer,
        normalize_status nf404Response.status, nf404Response.content.length, c, u⟩] ∧
    (info.path = none → renderOptString info.path = "None") ∧
    (info.host = none → optHostToString info.host = "None") := by
  have hmain : (handle_connection env c u).outcome = HOutcome.ok ∧
      (handle_connection env c u).wire = [prepend_headers nf404Response] ∧
      (handle_connection env c u).submitted =
        [⟨info.path, info.host, info.user_agent, info.ip, info.referer,
          normalize_status nf404Response.status, nf404Response.content.length, c, u⟩] := by
    unfold handle_connection
    rcases habsent with h | h
    · simp [hparse, h, nf404, hw, hf, hs]
    · rcases hh : info.host with _ | dd <;> simp [hparse, h, hh, nf404, hw, hf, hs]
  refine ⟨hmain.1, hmain.2.1, rfl, hmain.2.2, ?_, ?_⟩
  · intro hp
    rw [hp]
    rfl
  · intro hh2
    rw [hh2]
    rfl

/-- C8 witness: the 404 theorem at the absent-host sample environment. -/
theorem c8_witness :
    (handle_connection envNoHost 0 0).outcome = HOutcome.ok ∧
    optHostToString infoNoHost.host = "None" := by
  have h := c8_absent_404 envNoHost 0 0 infoNoHost rfl (Or.inl rfl) rfl rfl rfl
  exact ⟨h.1, h.2.2.2.2.2 rfl⟩

/-- Once the fallback logger's cache records a failed open, every later call
is a no-op: the whole state is preserved. -/
theorem errFold_unavailable :
    ∀ (cs : List ErrCall) (s : ErrLogSt), s.cache = ErrCache.unavailable →
    cs.foldl (fun s c => log_err c s) s = s := by
  intro cs
  induction cs with
  | nil => intro s _; rfl
  | cons c rest ih =>
    intro s h
    have hstep : log_err c s = s := by
      simp [log_err, h]
    show rest.foldl (fun s c => log_err c s) (log_err c s) = s
    rw [hstep]
    exact ih s h

/-- Once the fallback logger's cache records an open handle, a run of calls
never reopens, keeps the handle, and appends one `ERROR` line per successful
write and one diagnostic per failed write, in order. -/
theorem errFold_handle :
    ∀ (cs : List ErrCall) (s : ErrLogSt), s.cache = ErrCache.handle →
    cs.foldl (fun s c => log_err c s) s =
      ⟨ErrCache.handle, s.opens,
        s.fileLines ++ cs.filterMap
          (fun k => if k.writeOk then some ("ERROR - " ++ k.msg ++ "\n") else none),
        s.errOut ++ cs.filterMap
          (fun k => if k.writeOk then none else some "error writing to log file")⟩ := by
  intro cs
  induction cs with
  | nil =>
    intro s h
    cases s
    simp_all
  | cons c rest ih =>
    intro s h
    have hstep : log_err c s =
        if c.writeOk then
          { s with fileLines := s.fileLines ++ ["ERROR - " ++ c.msg ++ "\n"] }
        else { s with errOut := s.errOut ++ ["error writing to log file"] } := by
      simp [log_err, h]
    show rest.foldl (fun s c => log_err c s) (log_err c s) = _
    rw [hstep]
    cases hwk : c.writeOk
    · rw [if_neg (by simp)]
      rw [ih _ (by exact h)]
      simp [List.filterMap_cons, hwk, List.append_assoc]
    · rw [if_pos rfl]
      rw [ih _ (by exact h)]
      simp [List.filterMap_cons, hwk, List.append_assoc]

/-- C9: the fallback error logger opens the log file at most once — on its
first call, never on the empty run — and caches the outcome for the rest of
the process: a failed first open is never retried and suppresses every later
append, leaving only the single open diagnostic; with a cached handle every
call appends exactly one `ERROR - <debug-rendering>` line terminated by a
newline when the write succeeds, and reports a diagnostic to the error
stream without raising when it fails. -/
theorem c9_fallback_logger (c : ErrCall) (rest : List ErrCall) :
    (runErrLog []).opens = 0 ∧
    (runErrLog (c :: rest)).opens = 1 ∧
    (runErrLog (c :: rest)).cache =
      (if c.openOk then ErrCache.handle else ErrCache.unavailable) ∧
    (c.openOk = false →
      runErrLog (c :: rest) = ⟨ErrCache.unavailable, 1, [], ["cannot open log file"]⟩) ∧
    (c.openOk = true →
      (runErrLog (c :: rest)).fileLines = (c :: rest).filterMap
        (fun k => if k.writeOk then some ("ERROR - " ++ k.msg ++ "\n") else none) ∧
      (runErrLog (c :: rest)).errOut = (c :: rest).filterMap
        (fun k => if k.writeOk then none else some "error writing to log file")) := by
  have hrun : runErrLog (c :: rest) =
      rest.foldl (fun s c => log_err c s) (log_err c errLogInit) := rfl
  cases ho : c.openOk
  · have hfirst : log_err c errLogInit =
        ⟨ErrCache.unavailable, 1, [], ["cannot open log file"]⟩ := by
      unfold log_err errLogInit
      rw [ho]
      rfl
    have hall : runErrLog (c :: rest) =
        ⟨ErrCache.unavailable, 1, [], ["cannot open log file"]⟩ := by
      rw [hrun, hfirst]
      exact errFold_unavailable rest _ rfl
    refine ⟨rfl, ?_, ?_, ?_, ?_⟩
    · rw [hall]
    · rw [hall]; simp
    · intro _; exact hall
    · intro hcontra
      exact absurd hcontra (by simp)
  · cases hwk : c.writeOk
    · have hfirst : log_err c errLogInit =
          ⟨ErrCache.handle, 1, [], ["error writing to log file"]⟩ := by
        unfold log_err errLogInit
        rw [ho, hwk]
        rfl
      have hall : runErrLog (c :: rest) =
          ⟨ErrCache.handle, 1,
            [] ++ rest.filterMap
              (fun k => if k.writeOk then some ("ERROR - " ++ k.msg ++ "\n") else none),
            ["error writing to log file"] ++ rest.filterMap
              (fun k => if k.writeOk then none else some "error writing to log file")⟩ := by
        rw [hrun, hfirst]
        exact errFold_handle rest _ rfl
      refine ⟨rfl, ?_, ?_, ?_, ?_⟩
      · rw [hall]
      · rw [hall]; simp
      · intro hcontra
        exact absurd hcontra (by simp)
      · intro _
        rw [hall]
        constructor
        · simp [List.filterMap_cons, hwk]
        · simp [List.filterMap_cons, hwk]
    · have hfirst : log_err c errLogInit =
          ⟨ErrCache.handle, 1, ["ERROR - " ++ c.msg ++ "\n"], []⟩ := by
        unfold log_err errLogInit
        rw [ho, hwk]
        rfl
      have hall : runErrLog (c :: rest) =
          ⟨ErrCache.handle, 1,
            ["ERROR - " ++ c.msg ++ "\n"] ++ rest.filterMap
              (fun k => if k.writeOk then some ("ERROR - " ++ k.msg ++ "\n") else none),
            [] ++ rest.filterMap
              (fun k => if k.writeOk then none else some "error writing to log file")⟩ := by
        rw [hrun, hfirst]
        exact errFold_handle rest _ rfl
      refine ⟨rfl, ?_, ?_, ?_, ?_⟩
      · rw [hall]
      · rw [hall]; simp
      · intro hcontra
        exact absurd hcontra (by simp)
      · intro _
        rw [hall]
        constructor
        · simp [List.filterMap_cons, hwk]
        · simp [List.filterMap_cons, hwk]

/-- C9 witness: a successful first open followed by a later call whose open
outcome would differ: the file gets both `ERROR` lines and the open count
stays at one. -/
theorem c9_witness :
    (runErrLog [⟨true, true, "boom"⟩, ⟨false, true, "later"⟩]).opens = 1 ∧
    (runErrLog [⟨true, true, "boom"⟩, ⟨false, true, "later"⟩]).fileLines =
      ["ERROR - boom\n", "ERROR - later\n"] := by
  have h := c9_fallback_logger ⟨true, true, "boom"⟩ [⟨false, true, "later"⟩]
  refine ⟨h.2.1, ((h.2.2.2.2 rfl).1).trans (by decide)⟩

end RustyWebsite
